import Mathlib

/-!
Shallow embedding of two leaf components of the iTwinUI-react component
library, translated from the TypeScript source:

* `src/core/Table/TableCell.tsx` — the table cell rendering dispatcher
  (`TableCell`), which decides whether a cell is the row expansion anchor,
  computes sub-row indentation padding, assembles the cell renderer props
  and dispatches to a column supplied renderer or the default cell.
* `src/core/Header/HeaderButton.tsx` — the polymorphic header button
  (`HeaderButton`), which classifies a button descriptor into one of three
  variants (split, dropdown, plain) and assembles the merged prop set.

JavaScript semantics relevant here: `Array.prototype.findIndex` returns the
first matching index or `-1`; `!!x` is `true` for every array (including the
empty array) and every function, and `false` for `undefined`; object spread
applied last overrides earlier keys; `cx` (classnames) joins its truthy
string arguments with single spaces.

External collaborators (react-table prop getters, `getCellStyle`,
`SELECTION_CELL_ID`, `DefaultCell`, `SubRowExpander`, the button
primitives) are not in the excerpt; they are modelled as data constructors
that record exactly the inputs the component hands them.
-/

set_option maxHeartbeats 1000000

/-- JavaScript `Array.prototype.findIndex`: the index of the first element
satisfying `p`, or `-1` when no element does. -/
def jsFindIndex {α : Type} (p : α → Bool) : List α → Int
  | [] => -1
  | a :: as =>
    if p a then 0
    else if jsFindIndex p as < 0 then -1 else jsFindIndex p as + 1

theorem mem_of_getElem?_eq {α : Type} {l : List α} {n : Nat} {b : α}
    (h : l[n]? = some b) : b ∈ l := by
  induction l generalizing n with
  | nil => cases h
  | cons a as ih =>
    cases n with
    | zero =>
      simp only [List.getElem?_cons_zero, Option.some.injEq] at h
      exact h ▸ List.mem_cons_self a as
    | succ m =>
      simp only [List.getElem?_cons_succ] at h
      exact List.mem_cons_of_mem a (ih h)

theorem jsFindIndex_nonneg_or_neg_one {α : Type} (p : α → Bool) (l : List α) :
    jsFindIndex p l = -1 ∨ 0 ≤ jsFindIndex p l := by
  induction l with
  | nil => left; rfl
  | cons a as ih =>
    cases hpa : p a with
    | true => right; simp [jsFindIndex, hpa]
    | false =>
      rcases ih with h | h
      · left; simp [jsFindIndex, hpa, h]
      · right
        simp only [jsFindIndex, hpa, Bool.false_eq_true, if_false]
        omega

theorem jsFindIndex_eq_neg_one_iff {α : Type} (p : α → Bool) (l : List α) :
    jsFindIndex p l = -1 ↔ ∀ a ∈ l, p a = false := by
  induction l with
  | nil => simp [jsFindIndex]
  | cons a as ih =>
    cases hpa : p a with
    | true => simp [jsFindIndex, hpa]
    | false =>
      rcases jsFindIndex_nonneg_or_neg_one p as with h | h
      · rw [show jsFindIndex p (a :: as) = -1 from by simp [jsFindIndex, hpa, h]]
        constructor
        · intro _ b hb
          rcases List.mem_cons.mp hb with rfl | hbs
          · exact hpa
          · exact ih.mp h b hbs
        · intro _; rfl
      · have hne : ¬jsFindIndex p as = -1 := by omega
        have hnlt : ¬jsFindIndex p as < 0 := by omega
        simp only [jsFindIndex, hpa, Bool.false_eq_true, if_false, hnlt]
        constructor
        · intro hcontra; omega
        · intro hall
          exact absurd (ih.mpr (fun b hb => hall b (List.mem_cons_of_mem a hb))) hne

/-- Characterisation of `jsFindIndex` at a nonnegative result: `n` is the
first index whose element satisfies `p`. -/
theorem jsFindIndex_eq_coe_iff {α : Type} (p : α → Bool) (l : List α) (n : Nat) :
    jsFindIndex p l = (n : Int) ↔
      (∃ a, l[n]? = some a ∧ p a = true) ∧
        ∀ j, j < n → ∀ b, l[j]? = some b → p b = false := by
  induction l generalizing n with
  | nil =>
    simp only [jsFindIndex, List.getElem?_nil]
    constructor
    · intro h; omega
    · rintro ⟨⟨a, ha, -⟩, -⟩; cases ha
  | cons a as ih =>
    cases hpa : p a with
    | true =>
      cases n with
      | zero => simp [jsFindIndex, hpa]
      | succ m =>
        simp only [jsFindIndex, hpa, if_true]
        constructor
        · intro h; omega
        · rintro ⟨-, hall⟩
          have h0 := hall 0 (Nat.succ_pos m) a (by simp)
          rw [hpa] at h0; cases h0
    | false =>
      cases n with
      | zero =>
        have hne : ¬jsFindIndex p (a :: as) = (0 : Int) := by
          rcases jsFindIndex_nonneg_or_neg_one p as with h | h
          · simp [jsFindIndex, hpa, h]
          · have hnlt : ¬jsFindIndex p as < 0 := by omega
            simp only [jsFindIndex, hpa, Bool.false_eq_true, if_false, hnlt]
            omega
        simp only [Nat.cast_zero, hne, false_iff]
        rintro ⟨⟨b, hb, hpb⟩, -⟩
        simp only [List.getElem?_cons_zero, Option.some.injEq] at hb
        rw [← hb, hpa] at hpb; cases hpb
      | succ m =>
        rcases jsFindIndex_nonneg_or_neg_one p as with h | h
        · have hall := (jsFindIndex_eq_neg_one_iff p as).mp h
          simp only [jsFindIndex, hpa, Bool.false_eq_true, if_false, h]
          rw [if_pos (by norm_num : (-1 : Int) < 0)]
          constructor
          · intro hcontra; omega
          · rintro ⟨⟨b, hb, hpb⟩, -⟩
            simp only [List.getElem?_cons_succ] at hb
            rw [hall b (mem_of_getElem?_eq hb)] at hpb; cases hpb
        · have hnlt : ¬jsFindIndex p as < 0 := by omega
          simp only [jsFindIndex, hpa, Bool.false_eq_true, if_false, hnlt]
          rw [show ((m + 1 : Nat) : Int) = (m : Int) + 1 from by push_cast; ring]
          constructor
          · intro heq
            have hm : jsFindIndex p as = (m : Int) := by omega
            rcases (ih m).mp hm with ⟨⟨b, hb, hpb⟩, hall⟩
            refine ⟨⟨b, by simpa using hb, hpb⟩, ?_⟩
            intro j hj c hc
            cases j with
            | zero =>
              simp only [List.getElem?_cons_zero, Option.some.injEq] at hc
              rw [← hc]; exact hpa
            | succ k =>
              simp only [List.getElem?_cons_succ] at hc
              exact hall k (by omega) c hc
          · rintro ⟨⟨b, hb, hpb⟩, hall⟩
            have hm : jsFindIndex p as = (m : Int) := by
              apply (ih m).mpr
              refine ⟨⟨b, by simpa using hb, hpb⟩, ?_⟩
              intro j hj c hc
              exact hall (j + 1) (by omega) c (by simpa using hc)
            omega

/-- `cx` (the classnames package): join the truthy string arguments with
single spaces, skipping `undefined` and the empty string. -/
def cx (args : List (Option String)) : String :=
  String.intercalate " " ((args.filterMap id).filter (fun s => s != ""))

/-- Modelled from the spec: `SELECTION_CELL_ID` is imported from
`./hooks`, which is outside the excerpt; the spec calls it the reserved
selection column id. Its concrete value is irrelevant to every claim, only
that it is one fixed id. -/
def SELECTION_CELL_ID : String := "iui-table-checkbox-selector"

/-- The owning column of a cell, with the fields `TableCell` reads:
`id`, `cellClassName`, and the optional custom `cellRenderer`. The
renderer is a caller supplied callback external to this component, so it
is modelled as an opaque identity token; its application is recorded
symbolically in `CellOutput.custom`. -/
structure Column where
  id : String
  cellClassName : Option String
  cellRenderer : Option Nat
deriving DecidableEq

/-- A sibling cell of the row, as read by the `findIndex` scan on
`cell.row.cells` (only the column is consulted). -/
structure RowCell where
  column : Column
deriving DecidableEq

/-- The owning row: `depth`, `canExpand`, and the ordered cell list. -/
structure Row where
  depth : Nat
  canExpand : Bool
  cells : List RowCell
deriving DecidableEq

/-- The cell handed to `TableCell`: its value, owning column and row. -/
structure Cell where
  value : String
  column : Column
  row : Row
deriving DecidableEq

/-- The slice of `tableInstance.state` that `TableCell` reads. -/
structure TableState where
  isTableResizing : Bool
deriving DecidableEq

/-- The ambient table instance (spread into the cell props bundle). -/
structure TableInstance where
  state : TableState
deriving DecidableEq

/-- `TableCellProps<T>`: the props record of the `TableCell` component.
`expanderCell` is an optional caller supplied callback, modelled as an
opaque token. -/
structure TableCellProps where
  cell : Cell
  cellIndex : Nat
  isDisabled : Bool
  tableHasSubRows : Bool
  tableInstance : TableInstance
  expanderCell : Option Nat
deriving DecidableEq

/-- Source lines 34-36: `hasSubRowExpander` is true iff `cellIndex`
equals `cell.row.cells.findIndex((c) => c.column.id !== SELECTION_CELL_ID)`. -/
def hasSubRowExpander (cellIndex : Nat) (cells : List RowCell) : Bool :=
  (cellIndex : Int) == jsFindIndex (fun c => c.column.id != SELECTION_CELL_ID) cells

/-- Source lines 38-47: the sub-row indentation override. `none` models
the `undefined` return (no extra padding); `some n` models
`{ paddingLeft: n }`. -/
def getSubRowStyle (tableHasSubRows hasExp : Bool) (row : Row) : Option Nat :=
  if !tableHasSubRows || !hasExp then none
  else some (16 + (row.depth + (if row.canExpand then 0 else 1)) * 35)

/-- Modelled from the spec: `getCellStyle` (from `./utils`, outside the
excerpt) is the per-column base style merged with the resize-in-progress
state, opaque to this component; modelled as a record of exactly its two
arguments. -/
structure BaseStyle where
  column : Column
  isResizing : Bool
deriving DecidableEq

/-- Modelled from the spec: the external style function, recording its
inputs (source line 52 calls it as
`getCellStyle(cell.column, !!tableInstance.state.isTableResizing)`). -/
def getCellStyle (c : Column) (isResizing : Bool) : BaseStyle :=
  ⟨c, isResizing⟩

/-- The merged style object `{...getCellStyle(...), ...getSubRowStyle()}`:
spreading `undefined` adds nothing, spreading `{ paddingLeft }` adds that
key last. -/
structure CellStyle where
  base : BaseStyle
  paddingLeft : Option Nat
deriving DecidableEq

/-- The element attributes returned by `cell.getCellProps(...)`. -/
structure CellElementProps where
  className : String
  style : CellStyle
deriving DecidableEq

/-- Modelled from the spec: `cell.getCellProps` is the external table
engine's attribute-building function; it returns element attributes
(class, style, plus framework reconciliation keys opaque here) for the
given override object. -/
def getCellProps (className : String) (style : CellStyle) : CellElementProps :=
  ⟨className, style⟩

/-- `CellProps<T>` as assembled on source lines 57-60: the spread of
`tableInstance` plus `cell`, `row`, `value` and `column`. -/
structure CellPropsBundle where
  tableInstance : TableInstance
  cell : Cell
  row : Row
  value : String
  column : Column
deriving DecidableEq

/-- The props handed to `SubRowExpander` on source lines 65-70. -/
structure ExpanderProps where
  cell : Cell
  isDisabled : Bool
  cellProps : CellPropsBundle
  expanderCell : Option Nat
deriving DecidableEq

/-- The cell content fragment of source lines 62-74: an optional
expansion control followed by `cell.render('Cell')` (the cell's own
rendered value, modelled by the cell it renders). -/
structure CellContent where
  expander : Option ExpanderProps
  rendered : Cell
deriving DecidableEq

/-- `CellRendererProps<T>` of source lines 76-80. -/
structure CellRendererPropsM where
  cellElementProps : CellElementProps
  cellProps : CellPropsBundle
  children : CellContent
deriving DecidableEq

/-- The rendered output of `TableCell`: either the result of invoking the
column's custom `cellRenderer` on the assembled props (recorded
symbolically, the renderer being external input), or the `DefaultCell`
rendered with the same props. -/
inductive CellOutput where
  | custom (rendererId : Nat) (props : CellRendererPropsM)
  | defaultCell (props : CellRendererPropsM)
deriving DecidableEq

/-- The `CellRendererProps` assembled by `TableCell` for the given props:
element attributes (lines 49-55), context bundle (lines 57-60) and
content (lines 62-74). -/
def mkCellRendererProps (p : TableCellProps) : CellRendererPropsM :=
  let hasExp := hasSubRowExpander p.cellIndex p.cell.row.cells
  let cellElementProps := getCellProps
    (cx [some "iui-cell", p.cell.column.cellClassName])
    ⟨getCellStyle p.cell.column p.tableInstance.state.isTableResizing,
      getSubRowStyle p.tableHasSubRows hasExp p.cell.row⟩
  let cellProps : CellPropsBundle :=
    ⟨p.tableInstance, p.cell, p.cell.row, p.cell.value, p.cell.column⟩
  let content : CellContent :=
    ⟨if p.tableHasSubRows && hasExp && p.cell.row.canExpand then
        some ⟨p.cell, p.isDisabled, cellProps, p.expanderCell⟩
      else none,
      p.cell⟩
  ⟨cellElementProps, cellProps, content⟩

/-- `TableCell` (source lines 22-91): assemble the renderer props and
dispatch on `cell.column.cellRenderer`. -/
def renderTableCell (p : TableCellProps) : CellOutput :=
  match p.cell.column.cellRenderer with
  | some r => CellOutput.custom r (mkCellRendererProps p)
  | none => CellOutput.defaultCell (mkCellRendererProps p)

/-- Source lines 34-36 as a state-passing step: the inputs after the step
are returned alongside the computed value, making any mutation explicit
(this line only reads `cellIndex` and `cell.row.cells`). -/
def stepExpander (p : TableCellProps) : Bool × TableCellProps :=
  (hasSubRowExpander p.cellIndex p.cell.row.cells, p)

/-- Source lines 49-55 as a state-passing step (reads the column, the
resize flag and the sub-row style; writes nothing). -/
def stepElementProps (hasExp : Bool) (p : TableCellProps) :
    CellElementProps × TableCellProps :=
  (getCellProps
    (cx [some "iui-cell", p.cell.column.cellClassName])
    ⟨getCellStyle p.cell.column p.tableInstance.state.isTableResizing,
      getSubRowStyle p.tableHasSubRows hasExp p.cell.row⟩, p)

/-- Source lines 57-60 as a state-passing step: the bundle copies the
table instance spread and the cell fields; the inputs are not written. -/
def stepCellProps (p : TableCellProps) : CellPropsBundle × TableCellProps :=
  (⟨p.tableInstance, p.cell, p.cell.row, p.cell.value, p.cell.column⟩, p)

/-- Source lines 62-74 as a state-passing step. -/
def stepContent (hasExp : Bool) (cp : CellPropsBundle) (p : TableCellProps) :
    CellContent × TableCellProps :=
  (⟨if p.tableHasSubRows && hasExp && p.cell.row.canExpand then
      some ⟨p.cell, p.isDisabled, cp, p.expanderCell⟩
    else none,
    p.cell⟩, p)

/-- Source lines 76-90 as a state-passing step: assemble the renderer
props and dispatch. -/
def stepDispatch (cep : CellElementProps) (cp : CellPropsBundle)
    (content : CellContent) (p : TableCellProps) :
    CellOutput × TableCellProps :=
  (match p.cell.column.cellRenderer with
    | some r => CellOutput.custom r ⟨cep, cp, content⟩
    | none => CellOutput.defaultCell ⟨cep, cp, content⟩, p)

/-- `TableCell` with the inputs threaded through every translated step,
so that the absence of mutation is a provable statement: the second
component is the state of the inputs after rendering. -/
def renderTableCellSt (p : TableCellProps) : CellOutput × TableCellProps :=
  let r1 := stepExpander p
  let r2 := stepElementProps r1.1 r1.2
  let r3 := stepCellProps r2.2
  let r4 := stepContent r1.1 r3.1 r3.2
  stepDispatch r2.1 r3.1 r4.1 r4.2

/-- The main label / description / icon payloads: a text node or a single
element node with a tag, an optional CSS class and one child. -/
inductive ReactNode where
  | text (s : String)
  | elt (tag : String) (className : Option String) (child : ReactNode)
deriving DecidableEq

/-- JSX truthiness of a node value as used by `description && <div>...`:
the empty string is falsy, everything else here is truthy. -/
def truthyNode : ReactNode → Bool
  | ReactNode.text s => s != ""
  | ReactNode.elt _ _ _ => true

/-- An opaque menu item descriptor (built by the caller's `menuItems`
callback; its contents are external to `HeaderButton`). -/
structure MenuItem where
  itemId : Nat
deriving DecidableEq

/-- An opaque click handler value (any function is truthy in JS). -/
structure Handler where
  handlerId : Nat
deriving DecidableEq

/-- A `startIcon` / `endIcon` value: either a valid React element (with
the class its props carry) or a non-element value, for which
`React.isValidElement` is false. -/
inductive IconValue where
  | element (className : Option String) (payload : String)
  | raw (payload : String)
deriving DecidableEq

/-- `React.isValidElement` on an icon value. -/
def IconValue.isValidElement : IconValue → Bool
  | IconValue.element _ _ => true
  | IconValue.raw _ => false

/-- Source lines 80-85: `React.cloneElement(startIcon, { className:
cx('iui-header-button-icon', startIcon.props.className) })`. -/
def cloneWithIconClass : IconValue → IconValue
  | IconValue.element cn payload =>
      IconValue.element (some (cx [some "iui-header-button-icon", cn])) payload
  | IconValue.raw payload => IconValue.raw payload

/-- The `...rest` attributes of a `HeaderButton` call: every prop not
destructured on source lines 66-74 stays here and is spread last. A
`some` field models the key being present in `rest`. `className`,
`startIcon` and `menuItems` have no slot here because the destructuring
removes those keys from `rest`. -/
structure RestProps where
  onClick : Option Handler
  styleType : Option String
  ariaCurrent : Option String
  children : Option (List ReactNode)
  endIcon : Option IconValue
deriving DecidableEq

/-- `HeaderButtonProps` plus the pass-through attributes: the full prop
object a caller hands to `HeaderButton`. -/
structure HeaderButtonProps where
  name : ReactNode
  description : Option ReactNode
  isActive : Bool
  className : Option String
  startIcon : Option IconValue
  menuItems : Option (List MenuItem)
  rest : RestProps
deriving DecidableEq

/-- The assembled prop set (`buttonProps`, source lines 78-106) handed to
whichever primitive renders the button. -/
structure AssembledButtonProps where
  startIcon : Option IconValue
  styleType : String
  className : String
  ariaCurrent : Option String
  children : List ReactNode
  menuItems : Option (List MenuItem)
  onClick : Option Handler
  endIcon : Option IconValue
deriving DecidableEq

/-- Source lines 37-41: `isSplitButton` on the original props object —
`!!props.menuItems && !!props.onClick`. In JS every array (including the
empty one) and every function is truthy, so this is definedness of both
fields. -/
def isSplitOfProps (p : HeaderButtonProps) : Bool :=
  p.menuItems.isSome && p.rest.onClick.isSome

/-- Source lines 97-102: the computed `children` — a div holding the
name, then, when `description` is truthy, a div with class
`iui-description` holding the description. -/
def computedChildren (p : HeaderButtonProps) : List ReactNode :=
  ReactNode.elt "div" none p.name ::
    (match p.description with
      | some d =>
        if truthyNode d then [ReactNode.elt "div" (some "iui-description") d]
        else []
      | none => [])

/-- Source lines 88-95: the composed class name,
`cx({'iui-header-button': !isSplitButton(props), 'iui-header-split-button':
isSplitButton(props), 'iui-active': isActive}, className)`. -/
def composedClassName (p : HeaderButtonProps) : String :=
  cx [if !isSplitOfProps p then some "iui-header-button" else none,
      if isSplitOfProps p then some "iui-header-split-button" else none,
      if p.isActive then some "iui-active" else none,
      p.className]

/-- Source lines 78-106: assemble `buttonProps`. Computed fields come
first; `...(!!menuItems && { menuItems })` forwards `menuItems` exactly
when it is truthy (any defined array, empty included); `...rest` is
spread last, so a key present in `rest` overrides the computed value for
that key where a collision is possible (`styleType`, `aria-current`,
`children`), and contributes the keys (`onClick`, `endIcon`, ...) that
were never computed. -/
def assembleButtonProps (p : HeaderButtonProps) : AssembledButtonProps where
  startIcon :=
    match p.startIcon with
    | some ic => if ic.isValidElement then some (cloneWithIconClass ic) else none
    | none => none
  styleType := (p.rest.styleType).getD "borderless"
  className := composedClassName p
  ariaCurrent :=
    match p.rest.ariaCurrent with
    | some v => some v
    | none => if p.isActive then some "location" else none
  children := (p.rest.children).getD (computedChildren p)
  menuItems := if p.menuItems.isSome then p.menuItems else none
  onClick := p.rest.onClick
  endIcon := p.rest.endIcon

/-- The three button primitives a descriptor can resolve to. -/
inductive Variant where
  | split
  | dropdown
  | plain
deriving DecidableEq

/-- Source lines 37-41 applied to the assembled `buttonProps` (line 108). -/
def isSplitButton (b : AssembledButtonProps) : Bool :=
  b.menuItems.isSome && b.onClick.isSome

/-- Source lines 43-47 applied to the assembled `buttonProps` (line 111). -/
def isDropdownButton (b : AssembledButtonProps) : Bool :=
  b.menuItems.isSome

/-- Source lines 108-114: the dispatch chain — split first, then
dropdown, then the plain button. -/
def headerButtonVariant (b : AssembledButtonProps) : Variant :=
  if isSplitButton b then Variant.split
  else if isDropdownButton b then Variant.dropdown
  else Variant.plain

/-- `HeaderButton` (source lines 64-115): assemble the props and pick the
primitive that renders them. -/
def renderHeaderButton (p : HeaderButtonProps) : Variant × AssembledButtonProps :=
  (headerButtonVariant (assembleButtonProps p), assembleButtonProps p)

/-- A data column of the samples below. -/
def nameColumn : Column := ⟨"name", none, none⟩

/-- The selection column of the samples below. -/
def selColumn : Column := ⟨SELECTION_CELL_ID, none, none⟩

/-- A data cell slot of a sample row. -/
def nameRowCell : RowCell := ⟨nameColumn⟩

/-- A selection cell slot of a sample row. -/
def selRowCell : RowCell := ⟨selColumn⟩

/-- A non-expandable sample row at depth 2 with a selection cell followed
by a data cell. -/
def sampleRow : Row := ⟨2, false, [selRowCell, nameRowCell]⟩

/-- The data cell of `sampleRow`. -/
def sampleCell : Cell := ⟨"v", nameColumn, sampleRow⟩

/-- Sample `TableCell` props: the data cell of `sampleRow` at position 1,
in a table that has sub-rows. -/
def sampleProps : TableCellProps := ⟨sampleCell, 1, false, true, ⟨⟨false⟩⟩, none⟩

/-- A row consisting only of selection cells. -/
def selOnlyRow : Row := ⟨0, true, [selRowCell, selRowCell]⟩

/-- A cell of `selOnlyRow`. -/
def selOnlyCell : Cell := ⟨"v", selColumn, selOnlyRow⟩

/-- Sample `TableCell` props for the selection-only row. -/
def selOnlyProps : TableCellProps := ⟨selOnlyCell, 0, false, true, ⟨⟨false⟩⟩, none⟩

/-- A column that supplies a custom cell renderer (token 7). -/
def rendererColumn : Column := ⟨"name", none, some 7⟩

/-- A cell owned by `rendererColumn`. -/
def rendererCell : Cell := ⟨"v", rendererColumn, ⟨0, false, [⟨rendererColumn⟩]⟩⟩

/-- Sample `TableCell` props for the custom-renderer column. -/
def rendererProps : TableCellProps := ⟨rendererCell, 0, false, false, ⟨⟨false⟩⟩, none⟩

/-- A `rest` record with every pass-through key absent. -/
def emptyRest : RestProps := ⟨none, none, none, none, none⟩

/-- A header button descriptor whose menu-items field is the empty list
and which has no click handler. -/
def emptyMenuProps : HeaderButtonProps :=
  ⟨ReactNode.text "Project", none, false, none, none, some [], emptyRest⟩

/-- A header button descriptor whose leading icon is not a valid element. -/
def rawIconProps : HeaderButtonProps :=
  ⟨ReactNode.text "P", none, false, none, some (IconValue.raw "project.png"),
    none, emptyRest⟩

/-- A header button descriptor whose leading icon is a valid element that
already carries a class. -/
def eltIconProps : HeaderButtonProps :=
  ⟨ReactNode.text "P", none, false, none,
    some (IconValue.element (some "existing") "svg"), none, emptyRest⟩

/-- A header button descriptor whose pass-through attributes carry an
explicit `children` value. -/
def childrenOverrideProps : HeaderButtonProps :=
  ⟨ReactNode.text "N", none, false, none, none, none,
    ⟨none, none, none, some [ReactNode.text "override"], none⟩⟩

/-- The `Project A` scenario of the spec, inactive. -/
def projectAProps : HeaderButtonProps :=
  ⟨ReactNode.text "Project A", some (ReactNode.text "0n00434"), false, none,
    none, some [⟨1⟩, ⟨2⟩], emptyRest⟩

/-- The `Project A` scenario of the spec, active. -/
def projectAActiveProps : HeaderButtonProps :=
  ⟨ReactNode.text "Project A", some (ReactNode.text "0n00434"), true, none,
    none, some [⟨1⟩, ⟨2⟩], emptyRest⟩

/-- A split-button descriptor: menu items and a click handler. -/
def splitProps : HeaderButtonProps :=
  ⟨ReactNode.text "S", none, false, none, none, some [⟨1⟩],
    ⟨some ⟨5⟩, none, none, none, none⟩⟩

/-- C1: for every cell rendered by `TableCell`, when the table has no
sub-rows or the cell is not the expansion anchor no extra left padding is
added regardless of row depth; otherwise the computed left padding equals
`16 + (row.depth + (row.canExpand ? 0 : 1)) * 35`, i.e. `16 + (d + 1) * 35`
for a non-expandable row at depth `d` and `16 + d * 35` for an expandable
row at depth `d`. -/
theorem c1_subrow_padding (p : TableCellProps) :
    (p.tableHasSubRows = false ∨
        hasSubRowExpander p.cellIndex p.cell.row.cells = false →
      (mkCellRendererProps p).cellElementProps.style.paddingLeft = none) ∧
    (p.tableHasSubRows = true →
      hasSubRowExpander p.cellIndex p.cell.row.cells = true →
      (mkCellRendererProps p).cellElementProps.style.paddingLeft =
          some (16 +
            (p.cell.row.depth + (if p.cell.row.canExpand then 0 else 1)) * 35) ∧
        (p.cell.row.canExpand = false →
          (mkCellRendererProps p).cellElementProps.style.paddingLeft =
            some (16 + (p.cell.row.depth + 1) * 35)) ∧
        (p.cell.row.canExpand = true →
          (mkCellRendererProps p).cellElementProps.style.paddingLeft =
            some (16 + p.cell.row.depth * 35))) := by
  constructor
  · rintro (h | h) <;>
      simp [mkCellRendererProps, getCellProps, getSubRowStyle, h]
  · intro hs he
    refine ⟨by simp [mkCellRendererProps, getCellProps, getSubRowStyle, hs, he], ?_, ?_⟩
    · intro hce
      simp [mkCellRendererProps, getCellProps, getSubRowStyle, hs, he, hce]
    · intro hce
      simp [mkCellRendererProps, getCellProps, getSubRowStyle, hs, he, hce]

/-- Witness for C1 at the sample props: the data cell of a non-expandable
depth-2 row in a table with sub-rows gets padding `16 + 3 * 35 = 121`. -/
theorem c1_subrow_padding_witness :
    (mkCellRendererProps sampleProps).cellElementProps.style.paddingLeft =
      some 121 :=
  ((c1_subrow_padding sampleProps).2 rfl (by decide)).2.1 rfl

/-- C2: `TableCell` treats the cell as the expansion anchor
(`hasSubRowExpander = true`) exactly when its zero-based position equals
the index of the first cell in the row whose column id is not the
selection-column id, for every ordering of the row's cell list. -/
theorem c2_expansion_anchor (cellIndex : Nat) (cells : List RowCell) :
    hasSubRowExpander cellIndex cells = true ↔
      (∃ c, cells[cellIndex]? = some c ∧ c.column.id ≠ SELECTION_CELL_ID) ∧
        ∀ j, j < cellIndex → ∀ c, cells[j]? = some c →
          c.column.id = SELECTION_CELL_ID := by
  unfold hasSubRowExpander
  rw [beq_iff_eq, eq_comm,
    jsFindIndex_eq_coe_iff (fun c => c.column.id != SELECTION_CELL_ID) cells cellIndex]
  simp only [bne_iff_ne, ne_eq, bne_eq_false_iff_eq]

/-- Witness for C2 at a concrete row: in `[selection, data]` position 1 is
the anchor. -/
theorem c2_expansion_anchor_witness :
    hasSubRowExpander 1 [selRowCell, nameRowCell] = true :=
  (c2_expansion_anchor 1 [selRowCell, nameRowCell]).mpr
    ⟨⟨nameRowCell, by decide, by decide⟩, by
      intro j hj c hc
      cases j with
      | zero =>
        simp only [List.getElem?_cons_zero, Option.some.injEq] at hc
        rw [← hc]; decide
      | succ k => omega⟩

/-- C8: if the owning column supplies a custom cell-rendering function,
`TableCell` invokes it with the assembled renderer props (element
attributes, context bundle, built content) and returns its result
verbatim; otherwise it renders the default cell presentation with exactly
the same three inputs. -/
theorem c8_renderer_dispatch (p : TableCellProps) :
    (∀ r, p.cell.column.cellRenderer = some r →
      renderTableCell p = CellOutput.custom r (mkCellRendererProps p)) ∧
    (p.cell.column.cellRenderer = none →
      renderTableCell p = CellOutput.defaultCell (mkCellRendererProps p)) := by
  constructor
  · intro r h; simp [renderTableCell, h]
  · intro h; simp [renderTableCell, h]

/-- Witness for C8: the renderer-carrying column dispatches to its
renderer applied to the assembled props. -/
theorem c8_renderer_dispatch_witness :
    renderTableCell rendererProps =
      CellOutput.custom 7 (mkCellRendererProps rendererProps) :=
  (c8_renderer_dispatch rendererProps).1 7 rfl

/-- C9: rendering leaves the cell, row and table-instance inputs
unchanged — in the state-passing translation of `TableCell` the inputs
after rendering equal the inputs before, and the produced output is the
pure function of the inputs (so nothing is retained across invocations). -/
theorem c9_no_mutation (p : TableCellProps) :
    (renderTableCellSt p).2 = p ∧
      (renderTableCellSt p).1 = renderTableCell p := by
  constructor
  · rfl
  · cases h : p.cell.column.cellRenderer <;>
      simp [renderTableCellSt, stepExpander, stepElementProps, stepCellProps,
        stepContent, stepDispatch, renderTableCell, mkCellRendererProps, h]

/-- C10: in a row whose every cell belongs to the selection column, the
first-non-selection search returns `-1`, which no zero-based position
equals, so no cell of the row is the expansion anchor, no extra padding
is applied, and no expansion control is rendered. -/
theorem c10_selection_only_row (p : TableCellProps)
    (h : ∀ c ∈ p.cell.row.cells, c.column.id = SELECTION_CELL_ID) :
    jsFindIndex (fun c => c.column.id != SELECTION_CELL_ID) p.cell.row.cells = -1 ∧
    hasSubRowExpander p.cellIndex p.cell.row.cells = false ∧
    (mkCellRendererProps p).cellElementProps.style.paddingLeft = none ∧
    (mkCellRendererProps p).children.expander = none := by
  have hfind :
      jsFindIndex (fun c => c.column.id != SELECTION_CELL_ID) p.cell.row.cells = -1 := by
    apply (jsFindIndex_eq_neg_one_iff _ _).mpr
    intro c hc
    simp [h c hc]
  have hexp : hasSubRowExpander p.cellIndex p.cell.row.cells = false := by
    unfold hasSubRowExpander
    rw [hfind]
    simp only [beq_eq_false_iff_ne, ne_eq]
    omega
  refine ⟨hfind, hexp, ?_, ?_⟩
  · simp [mkCellRendererProps, getCellProps, getSubRowStyle, hexp]
  · simp [mkCellRendererProps, getCellProps, hexp]

/-- Witness for C10 at a two-cell selection-only row. -/
theorem c10_selection_only_row_witness :
    hasSubRowExpander selOnlyProps.cellIndex selOnlyProps.cell.row.cells = false ∧
      (mkCellRendererProps selOnlyProps).children.expander = none :=
  ⟨(c10_selection_only_row selOnlyProps (by decide)).2.1,
    (c10_selection_only_row selOnlyProps (by decide)).2.2.2⟩

/-- C3: the variant classification is total and mutually exclusive, with
the split check (menu items present and click handler present) evaluated
before the dropdown check (menu items present): both fields present gives
the split variant, menu items without a handler gives the dropdown
variant, and everything else the plain variant. Presence follows JS
truthiness of the source predicates: any defined array and any defined
function are truthy. -/
theorem c3_variant_total_exclusive (p : HeaderButtonProps) :
    ((renderHeaderButton p).1 = Variant.split ↔
      p.menuItems.isSome = true ∧ p.rest.onClick.isSome = true) ∧
    ((renderHeaderButton p).1 = Variant.dropdown ↔
      p.menuItems.isSome = true ∧ p.rest.onClick = none) ∧
    ((renderHeaderButton p).1 = Variant.plain ↔ p.menuItems = none) := by
  cases hm : p.menuItems <;> cases hc : p.rest.onClick <;>
    simp [renderHeaderButton, headerButtonVariant, isSplitButton,
      isDropdownButton, assembleButtonProps, hm, hc]

/-- Witness for C3: a descriptor with menu items and a click handler
resolves to the split variant. -/
theorem c3_variant_total_exclusive_witness :
    (renderHeaderButton splitProps).1 = Variant.split :=
  (c3_variant_total_exclusive splitProps).1.mpr ⟨rfl, rfl⟩

/-- C4 counterexample: the descriptor whose menu-items field is the empty
list is claimed to drop the field and classify as plain; in the code the
empty array is truthy, so the field is forwarded as the empty list and
the descriptor classifies as the dropdown variant, not the plain one. -/
theorem c4_empty_menu_counterexample :
    (assembleButtonProps emptyMenuProps).menuItems = some [] ∧
    (renderHeaderButton emptyMenuProps).1 = Variant.dropdown ∧
    (renderHeaderButton emptyMenuProps).1 ≠ Variant.plain := by
  refine ⟨rfl, rfl, ?_⟩
  decide

/-- C4 amended: a descriptor whose menu-items field is the empty list
still has the field forwarded (the empty array is truthy in JS) and still
counts as having menu items for classification — it resolves to the
split variant with a click handler and the dropdown variant without one,
never the plain variant. -/
theorem c4_empty_menu_forwarded (p : HeaderButtonProps)
    (h : p.menuItems = some []) :
    (assembleButtonProps p).menuItems = some [] ∧
    (p.rest.onClick.isSome = true → (renderHeaderButton p).1 = Variant.split) ∧
    (p.rest.onClick = none → (renderHeaderButton p).1 = Variant.dropdown) ∧
    (renderHeaderButton p).1 ≠ Variant.plain := by
  refine ⟨by simp [assembleButtonProps, h], ?_, ?_, ?_⟩
  · intro hc
    simp [renderHeaderButton, headerButtonVariant, isSplitButton,
      assembleButtonProps, h, hc]
  · intro hc
    simp [renderHeaderButton, headerButtonVariant, isSplitButton,
      isDropdownButton, assembleButtonProps, h, hc]
  · cases hc : p.rest.onClick <;>
      simp [renderHeaderButton, headerButtonVariant, isSplitButton,
        isDropdownButton, assembleButtonProps, h, hc]

/-- Witness for C4 (amended) at the empty-menu sample descriptor. -/
theorem c4_empty_menu_forwarded_witness :
    (renderHeaderButton emptyMenuProps).1 = Variant.dropdown :=
  (c4_empty_menu_forwarded emptyMenuProps rfl).2.2.1 rfl

/-- C5 counterexample: a supplied leading icon that is not a valid
element is claimed to pass through unmodified; in the code the ternary's
else branch replaces it by `undefined`, so it is dropped. -/
theorem c5_raw_icon_counterexample :
    (assembleButtonProps rawIconProps).startIcon = none ∧
    (assembleButtonProps rawIconProps).startIcon ≠
      some (IconValue.raw "project.png") := by
  refine ⟨rfl, ?_⟩
  decide

/-- C5 amended: a valid leading icon element is forwarded with the
icon-sizing class merged into any class it already carries; a supplied
icon that is not a valid element is replaced by `undefined` (dropped),
not passed through. -/
theorem c5_icon_wrapping (p : HeaderButtonProps) (ic : IconValue)
    (h : p.startIcon = some ic) :
    (ic.isValidElement = true →
      (assembleButtonProps p).startIcon = some (cloneWithIconClass ic)) ∧
    (∀ cn payload, ic = IconValue.element cn payload →
      (assembleButtonProps p).startIcon =
        some (IconValue.element
          (some (cx [some "iui-header-button-icon", cn])) payload)) ∧
    (ic.isValidElement = false → (assembleButtonProps p).startIcon = none) := by
  refine ⟨?_, ?_, ?_⟩
  · intro hv
    simp [assembleButtonProps, h, hv]
  · rintro cn payload rfl
    simp [assembleButtonProps, h, IconValue.isValidElement, cloneWithIconClass]
  · intro hv
    simp [assembleButtonProps, h, hv]

/-- Witness for C5 (amended): an element icon carrying class `existing`
comes out carrying `iui-header-button-icon existing`. -/
theorem c5_icon_wrapping_witness :
    (assembleButtonProps eltIconProps).startIcon =
      some (IconValue.element (some "iui-header-button-icon existing") "svg") :=
  (c5_icon_wrapping eltIconProps (IconValue.element (some "existing") "svg")
    rfl).2.1 (some "existing") "svg" rfl

/-- C6 counterexample: the pass-through attributes are claimed never to
override the computed `children`; in the code `children` is not
destructured away, so a caller-supplied `children` key lands in `rest`,
is spread last, and replaces the computed label/description children. -/
theorem c6_children_override_counterexample :
    (assembleButtonProps childrenOverrideProps).children =
      [ReactNode.text "override"] ∧
    (assembleButtonProps childrenOverrideProps).children ≠
      computedChildren childrenOverrideProps := by
  refine ⟨rfl, ?_⟩
  decide

/-- C6 amended: the pass-through attributes are merged last and win over
the computed default for every colliding field, including `children`;
only the composed class name cannot be overridden, because the caller's
`className` is destructured out of the pass-through set and merged into
the composition (and the click handler is taken from the pass-through
set as is). -/
theorem c6_rest_merged_last (p : HeaderButtonProps) :
    (∀ s, p.rest.styleType = some s → (assembleButtonProps p).styleType = s) ∧
    (p.rest.styleType = none →
      (assembleButtonProps p).styleType = "borderless") ∧
    (∀ v, p.rest.ariaCurrent = some v →
      (assembleButtonProps p).ariaCurrent = some v) ∧
    (∀ c, p.rest.children = some c → (assembleButtonProps p).children = c) ∧
    (p.rest.children = none →
      (assembleButtonProps p).children = computedChildren p) ∧
    (assembleButtonProps p).className = composedClassName p ∧
    (assembleButtonProps p).onClick = p.rest.onClick := by
  refine ⟨?_, ?_, ?_, ?_, ?_, rfl, rfl⟩
  · intro s hs; simp [assembleButtonProps, hs]
  · intro hs; simp [assembleButtonProps, hs]
  · intro v hv; simp [assembleButtonProps, hv]
  · intro c hc; simp [assembleButtonProps, hc]
  · intro hc; simp [assembleButtonProps, hc]

/-- Witness for C6 (amended): the children-override sample descriptor
keeps the caller children, and its class is still the composition. -/
theorem c6_rest_merged_last_witness :
    (assembleButtonProps childrenOverrideProps).children =
        [ReactNode.text "override"] ∧
      (assembleButtonProps childrenOverrideProps).className =
        composedClassName childrenOverrideProps :=
  ⟨(c6_rest_merged_last childrenOverrideProps).2.2.2.1
      [ReactNode.text "override"] rfl,
    (c6_rest_merged_last childrenOverrideProps).2.2.2.2.2.1⟩

/-- C7: the `Project A` descriptor (label, description `0n00434`, two
menu items, no click handler, inactive) renders the dropdown variant
whose children are the label div followed by an `iui-description` div,
with no active class and no `aria-current`; with the active flag the
output additionally carries `iui-active` and `aria-current = location`. -/
theorem c7_project_a_scenario :
    (renderHeaderButton projectAProps).1 = Variant.dropdown ∧
    (assembleButtonProps projectAProps).children =
      [ReactNode.elt "div" none (ReactNode.text "Project A"),
        ReactNode.elt "div" (some "iui-description") (ReactNode.text "0n00434")] ∧
    (assembleButtonProps projectAProps).className = "iui-header-button" ∧
    (assembleButtonProps projectAProps).ariaCurrent = none ∧
    (assembleButtonProps projectAProps).menuItems = some [⟨1⟩, ⟨2⟩] ∧
    (renderHeaderButton projectAActiveProps).1 = Variant.dropdown ∧
    (assembleButtonProps projectAActiveProps).className =
      "iui-header-button iui-active" ∧
    (assembleButtonProps projectAActiveProps).ariaCurrent = some "location" := by
  refine ⟨rfl, ?_, ?_, rfl, rfl, rfl, ?_, rfl⟩ <;> decide
